import Mathlib

/-!
Shallow embedding of the Barangay Cagpile GIS editor controller
(`BarangayCagpileGISEditor` in the repository's editor script).

The controller is a stateful UI class around Leaflet.  We embed its state as
an explicit record (`EditorState`) and each method as a state-passing
function.  External collaborators (the DOM, the Leaflet map object, the
drawing toolkit) are modelled at the controller's boundary:

* Mutable JS objects (features, shapes) are referenced by numeric ids; the
  controller state carries heaps `features : Nat → Feature`,
  `shapeStyles / shapePopups / shapeHasSetStyle / mapHasShape : Nat → _`.
  Fresh ids are drawn from a `nextId` counter (modelling JS object identity
  for objects allocated by the controller or handed to it by the toolkit).
* A renderable layer group (`L.layerGroup` / the `drawnItems` feature group)
  is a list of `(feature id, shape id)` pairs; `mapLayers` maps each of the
  five group keys to its list.  `mapLayers drawn` plays the role of
  `this.drawnItems` (they alias the same group in the source).
* `Date.now()` is a parameter `now` of the operations that call it.
* DOM reads (`document.querySelectorAll` over the attribute form) are a
  parameter `inputs` (id/value pairs) of `saveAttributes`; DOM writes with
  no feedback into the controller (banners, counters, toolbar visibility)
  are not part of the state, except `isDrawing` which the source keeps as a
  field.  `confirm(...)` is a boolean parameter.
* `showNotification` appends `(message, type)` to a `notifications` list.
-/

/-- Property values stored in a feature's `properties` bag: the source puts
JS strings and (integer) numbers there. -/
inductive PropVal where
  | str (s : String)
  | num (n : Int)
  deriving DecidableEq, Repr

/-- JS truthiness of a property value (`undefined` is handled at the
`Option` level by `jsOr`). -/
def PropVal.truthy : PropVal → Bool
  | .str s => s ≠ ""
  | .num n => n ≠ 0

/-- String interpolation of a property value in a template literal. -/
def PropVal.display : PropVal → String
  | .str s => s
  | .num n => toString n

/-- Geometry of a GeoJSON feature: a type tag and a flat coordinate list
(sufficient for the point geometries the controller itself builds; drawn
geometries are carried opaquely). -/
structure Geometry where
  gtype : String
  coordinates : List Rat
  deriving DecidableEq, Repr

/-- A GeoJSON feature: `{ type: "Feature", properties, geometry }`.  The
`properties` object is an association list (JS objects have unique keys;
our update function preserves that). -/
structure Feature where
  properties : List (String × PropVal)
  geometry : Geometry
  deriving DecidableEq, Repr

/-- Leaflet path style, restricted to the two options the controller ever
sets or restores (`weight`, `color`). -/
structure Style where
  weight : Nat
  color : String
  deriving DecidableEq, Repr

/-- The five keys of `this.mapLayers` (`drawn` aliases `this.drawnItems`). -/
inductive GroupName where
  | households | facilities | roads | boundary | drawn
  deriving DecidableEq, Repr

/-- The `this.selectedFeature` record `{ feature, layer, layerName }`:
`feature` and `layer` are heap ids of the feature object and the shape. -/
structure Selection where
  feature : Nat
  layer : Nat
  layerName : String
  deriving DecidableEq, Repr

/-- JS property read `props[k]` on an association list. -/
def getProp : List (String × PropVal) → String → Option PropVal
  | [], _ => none
  | p :: ps, k => if p.1 = k then some p.2 else getProp ps k

/-- JS property write `obj[k] = v` (overwrite in place, or append if the
key is absent). -/
def setProp (ps : List (String × PropVal)) (k : String) (v : PropVal) : List (String × PropVal) :=
  if ps.any (fun p => p.1 = k) then
    ps.map (fun p => if p.1 = k then (k, v) else p)
  else ps ++ [(k, v)]

/-- JS object spread `\x7b ...old, ...new \x7d`: each key of `new`, in
order, overwrites or extends `old`. -/
def mergeProps (old new : List (String × PropVal)) : List (String × PropVal) :=
  new.foldl (fun acc p => setProp acc p.1 p.2) old

/-- Template helper for `v || dflt` where `v` is a possibly-absent
property interpolated into a template literal. -/
def jsOr (v : Option PropVal) (dflt : String) : String :=
  match v with
  | some pv => if pv.truthy then pv.display else dflt
  | none => dflt

/-- JS `s.charAt(0).toUpperCase() + s.slice(1)`. -/
def capitalize (s : String) : String :=
  match s.data with
  | [] => ""
  | c :: cs => String.mk (c.toUpper :: cs)

/-- Check that `pat` is a prefix of the first list, returning the rest. -/
def stripAt : List Char → List Char → Option (List Char)
  | rest, [] => some rest
  | [], _ :: _ => none
  | a :: as, b :: bs => if a = b then stripAt as bs else none

/-- Remove the first occurrence of `pat` (char-list form). -/
def replFirst : List Char → List Char → List Char
  | [], _ => []
  | a :: as, pat =>
    match stripAt (a :: as) pat with
    | some rest => rest
    | none => a :: replFirst as pat

/-- JS `s.replace(pat, "")` with a plain-string pattern: removes the first
occurrence of `pat` from `s`. -/
def replaceFirst (s pat : String) : String :=
  String.mk (replFirst s.data pat.data)

/-- Substring check on char lists: `needle` begins the list. -/
def beginsWith : List Char → List Char → Bool
  | _, [] => true
  | [], _ :: _ => false
  | a :: as, b :: bs => (a = b) && beginsWith as bs

/-- Substring occurrence check (char-list form). -/
def subList (needle : List Char) : List Char → Bool
  | [] => beginsWith [] needle
  | c :: cs => beginsWith (c :: cs) needle || subList needle cs

/-- String containment (used to state the spec's "popup text contains X"). -/
def strContains (hay needle : String) : Bool :=
  subList needle.data hay.data

/-- The `this.colors` map (keys households/facilities/roads/boundary). -/
def colors : String → Option String
  | "households" => some "#3388ff"
  | "facilities" => some "#27ae60"
  | "roads" => some "#7f8c8d"
  | "boundary" => some "#ff7800"
  | _ => none

/-- The expression `this.colors[layerName] || '#3388ff'` used when styling
a selection or restoring a shape's normal style. -/
def colorOr (layerName : String) : String :=
  (colors layerName).getD "#3388ff"

/-- Key lookup `this.mapLayers[layerName]`. -/
def lookupGroup : String → Option GroupName
  | "households" => some .households
  | "facilities" => some .facilities
  | "roads" => some .roads
  | "boundary" => some .boundary
  | "drawn" => some .drawn
  | _ => none

/-- Pointwise update of a `Nat`-indexed heap. -/
def upd {α : Type} (f : Nat → α) (k : Nat) (v : α) : Nat → α :=
  fun n => if n = k then v else f n

/-- Pointwise update of a `GroupName`-indexed map. -/
def updG {α : Type} (f : GroupName → α) (k : GroupName) (v : α) : GroupName → α :=
  fun g => if g = k then v else f g

/-- The controller state (the fields of `BarangayCagpileGISEditor` that are
read back by the controller, plus the heaps for the JS objects it owns). -/
structure EditorState where
  currentTool : String
  currentLayer : String
  selectedFeature : Option Selection
  isDrawing : Bool
  mapLayers : GroupName → List (Nat × Nat)
  features : Nat → Feature
  shapeStyles : Nat → Style
  shapeHasSetStyle : Nat → Bool
  shapePopups : Nat → String
  mapHasShape : Nat → Bool
  mapHasGroup : GroupName → Bool
  nextId : Nat
  notifications : List (String × String)

/-- The `createPopupContent(feature, layerName)` HTML string, template
whitespace included. -/
def createPopupContent (feature : Feature) (layerName : String) : String :=
  let props := feature.properties
  let base := "<div style=\"min-width: 200px\"><strong>" ++ capitalize layerName ++ "</strong>"
  let content :=
    if layerName = "households" then
      base ++ "\n                <br><strong>Owner:</strong> " ++ jsOr (getProp props "Owner") "N/A"
        ++ "\n                <br><strong>Family:</strong> " ++ jsOr (getProp props "Family nm") "N/A"
        ++ "\n                <br><strong>Residents:</strong> " ++ jsOr (getProp props "Residents") "0"
        ++ "\n                <br><em>Click to edit</em>\n            "
    else if layerName = "facilities" then
      base ++ "\n                <br><strong>Facility:</strong> " ++ jsOr (getProp props "Facility") "N/A"
        ++ "\n                <br><em>Click to edit</em>\n            "
    else
      base ++ "<br><em>Click to edit</em>"
  content ++ "</div>"

/-- The `getDefaultProperties(layerName)` defaults table with its
`defaults[layerName] || \x7b id: Date.now(), name: 'New Feature' \x7d`
fallback; `Date.now()` is the parameter `now`. -/
def getDefaultProperties (now : Int) (layerName : String) : List (String × PropVal) :=
  if layerName = "households" then
    [("id", .num now), ("Owner", .str "New Owner"),
     ("Family nm", .str "New Family"), ("Residents", .num 1)]
  else if layerName = "facilities" then
    [("id", .num now), ("Facility", .str "New Facility")]
  else if layerName = "drawn" then
    [("id", .num now), ("name", .str "New Feature")]
  else
    [("id", .num now), ("name", .str "New Feature")]

/-- The `showNotification(message, type)` effect on controller state: the
transient DOM node is recorded as an appended `(message, type)` entry. -/
def showNotification (message ntype : String) (s : EditorState) : EditorState :=
  { s with notifications := s.notifications ++ [(message, ntype)] }

/-- The input ids of the form that `createAttributeForm(props, layerName)`
renders into the attribute editor (one entry per `form-input` element). -/
def formInputIds (layerName : String) : List String :=
  if layerName = "households" ∨ layerName = "drawn" then
    ["attr-id", "attr-owner", "attr-family", "attr-residents"]
  else if layerName = "facilities" then
    ["attr-facility"]
  else
    ["attr-name"]

/-- Style-restore block shared by `selectFeature` and `deselectFeature`:
`if (this.selectedFeature && this.selectedFeature.layer.setStyle)
  this.selectedFeature.layer.setStyle(\x7b weight: 2,
  color: this.colors[this.selectedFeature.layerName] || '#3388ff' \x7d)`. -/
def restorePrevSelection (s : EditorState) : EditorState :=
  match s.selectedFeature with
  | some sel =>
    if s.shapeHasSetStyle sel.layer then
      { s with shapeStyles := upd s.shapeStyles sel.layer ⟨2, colorOr sel.layerName⟩ }
    else s
  | none => s

/-- The `selectFeature(feature, layer, layerName, isNew)` method: restore
the previous selection's style, store the new selection, apply the
highlight style (the attribute-editor rendering and the selected-count DOM
write have no feedback into controller state). -/
def selectFeature (fid sid : Nat) (layerName : String) (isNew : Bool) (s : EditorState) : EditorState :=
  let s1 := restorePrevSelection s
  let s2 := { s1 with selectedFeature := some ⟨fid, sid, layerName⟩ }
  if s2.shapeHasSetStyle sid then
    { s2 with shapeStyles := upd s2.shapeStyles sid ⟨4, "#ff0000"⟩ }
  else s2

/-- The `deselectFeature()` method: restore the selection's style, clear
the selection (the no-selection panel is DOM-only). -/
def deselectFeature (s : EditorState) : EditorState :=
  { restorePrevSelection s with selectedFeature := none }

/-- The `saveAttributes()` method: no-op without a selection; otherwise
read every form input (`inputs` models the id/value pairs returned by
`querySelectorAll('#attribute-editor .form-input')`), derive each field
key by `input.id.replace('attr-', '')`, spread the collected values over
the feature's `properties`, regenerate the popup content, and notify. -/
def saveAttributes (inputs : List (String × String)) (s : EditorState) : EditorState :=
  match s.selectedFeature with
  | none => s
  | some sel =>
    let updatedProperties := inputs.map (fun i => (replaceFirst i.1 "attr-", PropVal.str i.2))
    let f := s.features sel.feature
    let f2 : Feature := { f with properties := mergeProps f.properties updatedProperties }
    let s1 := { s with features := upd s.features sel.feature f2 }
    let s2 := { s1 with
      shapePopups := upd s1.shapePopups sel.layer (createPopupContent f2 sel.layerName) }
    showNotification "✅ Feature saved successfully!" "success" s2

/-- Block `if (this.map.hasLayer(layer)) this.map.removeLayer(layer)` of
`deleteSelectedFeature`. -/
def removeShapeFromMap (sid : Nat) (s : EditorState) : EditorState :=
  if s.mapHasShape sid then
    { s with mapHasShape := upd s.mapHasShape sid false }
  else s

/-- Block `if (group.hasLayer(layer)) group.removeLayer(layer)` of
`deleteSelectedFeature`, for one layer group. -/
def removeShapeFromGroup (g : GroupName) (sid : Nat) (s : EditorState) : EditorState :=
  if (s.mapLayers g).any (fun p => p.2 = sid) then
    { s with
      mapLayers := updG s.mapLayers g ((s.mapLayers g).filter (fun p => p.2 ≠ sid)) }
  else s

/-- The `deleteSelectedFeature()` method: early return when there is no
selection or the user declines the `confirm` dialog; otherwise remove the
shape from the map, from `mapLayers[layerName]` and from `drawnItems`
(each guarded by a `hasLayer` check), then deselect and notify. -/
def deleteSelectedFeature (confirmed : Bool) (s : EditorState) : EditorState :=
  match s.selectedFeature with
  | none => s
  | some sel =>
    if confirmed then
      let s1 := removeShapeFromMap sel.layer s
      let s2 :=
        match lookupGroup sel.layerName with
        | some g => removeShapeFromGroup g sel.layer s1
        | none => s1
      let s3 := removeShapeFromGroup .drawn sel.layer s2
      showNotification "✅ Feature deleted successfully!" "success" (deselectFeature s3)
    else s

/-- The `toggleLayer(layerName, visible)` method: attach or detach the
named group from the map; when turning on, also set `currentLayer`. -/
def toggleLayer (layerName : String) (visible : Bool) (s : EditorState) : EditorState :=
  let s1 :=
    match lookupGroup layerName with
    | some g => { s with mapHasGroup := updG s.mapHasGroup g visible }
    | none => s
  if visible then { s1 with currentLayer := layerName } else s1

/-- The `startDrawing(drawType)` method: sets the drawing flag (toolbar
display and the simulated toolbar click are DOM/toolkit effects). -/
def startDrawing (s : EditorState) : EditorState :=
  { s with isDrawing := true }

/-- The `enableTool(tool)` method: clear the drawing flag, then dispatch
per tool (`edit` only pokes the external toolkit; `delete` deletes the
selection if any, with the `confirm` outcome passed in). -/
def enableTool (tool : String) (confirmed : Bool) (s : EditorState) : EditorState :=
  let s0 := { s with isDrawing := false }
  if tool = "edit" then s0
  else if tool = "marker" ∨ tool = "polygon" ∨ tool = "rectangle" ∨ tool = "polyline" then
    startDrawing s0
  else if tool = "delete" then
    match s0.selectedFeature with
    | some _ => deleteSelectedFeature confirmed s0
    | none => s0
  else s0

/-- The `setActiveTool(tool)` method: record the tool (button/banner DOM
updates are external) and enable it. -/
def setActiveTool (tool : String) (confirmed : Bool) (s : EditorState) : EditorState :=
  enableTool tool confirmed { s with currentTool := tool }

/-- The `handleDrawCreated(e)` handler: the toolkit-created shape (fresh
`sid`, geometry `geom`, with `setStyle` only for non-marker shapes) is
added to the drawn-items group; a feature with
`getDefaultProperties(this.currentLayer)` and the shape's geometry is
synthesized; popup and click handler are attached; the feature is
selected; a notification fires and the tool reverts to `select`. -/
def handleDrawCreated (now : Int) (layerType : String) (hasStyle : Bool)
    (geom : Geometry) (s : EditorState) : EditorState :=
  let fid := s.nextId
  let sid := s.nextId + 1
  let newFeature : Feature :=
    { properties := getDefaultProperties now s.currentLayer, geometry := geom }
  let s1 := { s with
    nextId := s.nextId + 2,
    features := upd s.features fid newFeature,
    shapeHasSetStyle := upd s.shapeHasSetStyle sid hasStyle,
    mapHasShape := upd s.mapHasShape sid true,
    mapLayers := updG s.mapLayers .drawn (s.mapLayers .drawn ++ [(fid, sid)]) }
  let s2 := { s1 with
    shapePopups := upd s1.shapePopups sid (createPopupContent newFeature "drawn") }
  let s3 := selectFeature fid sid "drawn" true s2
  let s4 := showNotification ("New " ++ layerType ++ " created") "success" s3
  setActiveTool "select" false s4

/-- The `handleDrawEdited(e)` handler: a console log and a notification
(the edited geometries are not synced into any feature). -/
def handleDrawEdited (s : EditorState) : EditorState :=
  showNotification "Features updated successfully" "success" s

/-- The `handleDrawDeleted(e)` handler: deselect and notify (the toolkit
already removed the shapes from the drawn-items group before the event). -/
def handleDrawDeleted (s : EditorState) : EditorState :=
  showNotification "Features deleted successfully" "success" (deselectFeature s)

/-- Toolkit-side removal of shapes from the drawn-items group, as it has
happened by the time `L.Draw.Event.DELETED` fires. -/
def removeDrawnShapes (sids : List Nat) (s : EditorState) : EditorState :=
  { s with
    mapLayers := updG s.mapLayers .drawn ((s.mapLayers .drawn).filter (fun p => ¬ sids.contains p.2)) }

/-- One sample household of `createSampleData` (its object literal). -/
structure SampleHousehold where
  lat : Rat
  lng : Rat
  id : Int
  name : String
  owner : String
  residents : Int

/-- The `sampleHouseholds` array literal. -/
def sampleHouseholds : List SampleHousehold :=
  [⟨12.2390, 125.3180, 101, "Cruz Family", "Juan Cruz", 4⟩,
   ⟨12.2395, 125.3190, 102, "Santos Family", "Maria Santos", 5⟩,
   ⟨12.2400, 125.3195, 103, "Reyes Family", "Pedro Reyes", 3⟩]

/-- The feature object built for one sample household. -/
def sampleFeature (h : SampleHousehold) : Feature :=
  { properties :=
      [("id", .num h.id), ("Owner", .str h.owner),
       ("Family nm", .str h.name), ("Residents", .num h.residents)],
    geometry := { gtype := "Point", coordinates := [h.lng, h.lat] } }

/-- One iteration of the `sampleHouseholds.forEach` loop: create the
circle marker (a path, so it has `setStyle`; stroke `#000`, weight 2),
bind its popup, and add the pair to the households group. -/
def addSampleMarker (h : SampleHousehold) (s : EditorState) : EditorState :=
  let fid := s.nextId
  let sid := s.nextId + 1
  let feature := sampleFeature h
  { s with
    nextId := s.nextId + 2,
    features := upd s.features fid feature,
    shapeStyles := upd s.shapeStyles sid ⟨2, "#000"⟩,
    shapeHasSetStyle := upd s.shapeHasSetStyle sid true,
    shapePopups := upd s.shapePopups sid (createPopupContent feature "households"),
    mapHasShape := upd s.mapHasShape sid true,
    mapLayers := updG s.mapLayers .households (s.mapLayers .households ++ [(fid, sid)]) }

/-- The `createSampleData(layerName)` method: populates the households
group from the fixed array; for every other layer name only the console
log runs. -/
def createSampleData (layerName : String) (s : EditorState) : EditorState :=
  if layerName = "households" then
    sampleHouseholds.foldl (fun st h => addSampleMarker h st) s
  else s

/-- A parsed GeoJSON response body (`data.features`). -/
structure GeoJSONData where
  features : List Feature

/-- One `onEachFeature` iteration of `addGeoJSONToMap`: style the shape
(stroke `#000`, weight 2), bind its popup and click handler, and add the
pair to `mapLayers[layerName]` (an unknown layer name would be a JS lookup
error; the model leaves the state unchanged there, and no caller passes
one). -/
def addLoadedFeature (layerName : String) (s : EditorState) (f : Feature) : EditorState :=
  match lookupGroup layerName with
  | some g =>
    let fid := s.nextId
    let sid := s.nextId + 1
    { s with
      nextId := s.nextId + 2,
      features := upd s.features fid f,
      shapeStyles := upd s.shapeStyles sid ⟨2, "#000"⟩,
      shapeHasSetStyle := upd s.shapeHasSetStyle sid true,
      shapePopups := upd s.shapePopups sid (createPopupContent f layerName),
      mapHasShape := upd s.mapHasShape sid true,
      mapLayers := updG s.mapLayers g (s.mapLayers g ++ [(fid, sid)]) }
  | none => s

/-- The `addGeoJSONToMap(geojsonData, layerName)` method. -/
def addGeoJSONToMap (data : GeoJSONData) (layerName : String) (s : EditorState) : EditorState :=
  data.features.foldl (addLoadedFeature layerName) s

/-- The `loadGeoJSONLayer(layerName, apiUrl)` method, with the network and
parse outcome as an explicit `Except` (an `error` covers both a non-ok
HTTP status and a `response.json()` parse failure): on success the data is
added to the map; on failure an error notification is shown and
`createSampleData(layerName)` runs. -/
def loadGeoJSONLayer (layerName : String) (result : Except String GeoJSONData)
    (s : EditorState) : EditorState :=
  match result with
  | .ok data => addGeoJSONToMap data layerName s
  | .error _ =>
    createSampleData layerName
      (showNotification ("Error loading " ++ layerName ++ " data") "error" s)

/-- The controller state right after the constructor and `init()` DOM/map
setup, before any asynchronous layer load resolves: default tool and
layer, no selection, all five groups empty and attached to the map. -/
def initState : EditorState :=
  { currentTool := "select",
    currentLayer := "households",
    selectedFeature := none,
    isDrawing := false,
    mapLayers := fun _ => [],
    features := fun _ => { properties := [], geometry := { gtype := "", coordinates := [] } },
    shapeStyles := fun _ => ⟨0, ""⟩,
    shapeHasSetStyle := fun _ => false,
    shapePopups := fun _ => "",
    mapHasShape := fun _ => false,
    mapHasGroup := fun _ => true,
    nextId := 0,
    notifications := [] }

/-! Helper lemmas about the heap updates and the operations' frames. -/

@[simp]
theorem upd_self {α : Type} (f : Nat → α) (k : Nat) (v : α) : upd f k v k = v := by
  simp [upd]

theorem upd_ne {α : Type} (f : Nat → α) (k n : Nat) (v : α) (h : n ≠ k) :
    upd f k v n = f n := by
  simp [upd, h]

@[simp]
theorem updG_self {α : Type} (f : GroupName → α) (k : GroupName) (v : α) :
    updG f k v k = v := by
  simp [updG]

theorem updG_ne {α : Type} (f : GroupName → α) (k g : GroupName) (v : α) (h : g ≠ k) :
    updG f k v g = f g := by
  simp [updG, h]

theorem restorePrevSelection_selectedFeature (s : EditorState) :
    (restorePrevSelection s).selectedFeature = s.selectedFeature := by
  unfold restorePrevSelection
  cases h : s.selectedFeature <;> simp [h]
  split <;> simp [h]

theorem restorePrevSelection_shapeHasSetStyle (s : EditorState) :
    (restorePrevSelection s).shapeHasSetStyle = s.shapeHasSetStyle := by
  unfold restorePrevSelection
  cases s.selectedFeature <;> simp
  split <;> rfl

theorem restorePrevSelection_mapLayers (s : EditorState) :
    (restorePrevSelection s).mapLayers = s.mapLayers := by
  unfold restorePrevSelection
  cases s.selectedFeature <;> simp
  split <;> rfl

theorem restorePrevSelection_features (s : EditorState) :
    (restorePrevSelection s).features = s.features := by
  unfold restorePrevSelection
  cases s.selectedFeature <;> simp
  split <;> rfl

theorem selectFeature_selectedFeature (fid sid : Nat) (ln : String) (b : Bool) (s : EditorState) :
    (selectFeature fid sid ln b s).selectedFeature = some ⟨fid, sid, ln⟩ := by
  simp only [selectFeature]
  split <;> rfl

theorem selectFeature_shapeHasSetStyle (fid sid : Nat) (ln : String) (b : Bool) (s : EditorState) :
    (selectFeature fid sid ln b s).shapeHasSetStyle = s.shapeHasSetStyle := by
  simp only [selectFeature]
  split <;> simp [restorePrevSelection_shapeHasSetStyle]

theorem selectFeature_mapLayers (fid sid : Nat) (ln : String) (b : Bool) (s : EditorState) :
    (selectFeature fid sid ln b s).mapLayers = s.mapLayers := by
  simp only [selectFeature]
  split <;> simp [restorePrevSelection_mapLayers]

theorem selectFeature_features (fid sid : Nat) (ln : String) (b : Bool) (s : EditorState) :
    (selectFeature fid sid ln b s).features = s.features := by
  simp only [selectFeature]
  split <;> simp [restorePrevSelection_features]

theorem deselectFeature_selectedFeature (s : EditorState) :
    (deselectFeature s).selectedFeature = none := rfl

theorem deselectFeature_mapLayers (s : EditorState) :
    (deselectFeature s).mapLayers = s.mapLayers := by
  unfold deselectFeature
  simp [restorePrevSelection_mapLayers]

theorem showNotification_frame (m t : String) (s : EditorState) :
    (showNotification m t s).selectedFeature = s.selectedFeature ∧
    (showNotification m t s).mapLayers = s.mapLayers ∧
    (showNotification m t s).features = s.features ∧
    (showNotification m t s).currentTool = s.currentTool := by
  exact ⟨rfl, rfl, rfl, rfl⟩

theorem saveAttributes_selectedFeature (inputs : List (String × String)) (s : EditorState) :
    (saveAttributes inputs s).selectedFeature = s.selectedFeature := by
  unfold saveAttributes
  cases h : s.selectedFeature <;> simp [h, showNotification]

theorem saveAttributes_mapLayers (inputs : List (String × String)) (s : EditorState) :
    (saveAttributes inputs s).mapLayers = s.mapLayers := by
  unfold saveAttributes
  cases h : s.selectedFeature <;> simp [h, showNotification]

theorem toggleLayer_mapLayers (name : String) (v : Bool) (s : EditorState) :
    (toggleLayer name v s).mapLayers = s.mapLayers := by
  unfold toggleLayer
  cases h : lookupGroup name <;> simp [h] <;> split <;> rfl

theorem toggleLayer_selectedFeature (name : String) (v : Bool) (s : EditorState) :
    (toggleLayer name v s).selectedFeature = s.selectedFeature := by
  unfold toggleLayer
  cases h : lookupGroup name <;> simp [h] <;> split <;> rfl

theorem toggleLayer_currentLayer_on (name : String) (s : EditorState) :
    (toggleLayer name true s).currentLayer = name := by
  unfold toggleLayer
  cases h : lookupGroup name <;> simp [h]

theorem toggleLayer_nextId (name : String) (v : Bool) (s : EditorState) :
    (toggleLayer name v s).nextId = s.nextId := by
  unfold toggleLayer
  cases h : lookupGroup name <;> simp [h] <;> split <;> rfl

theorem toggleLayer_features (name : String) (v : Bool) (s : EditorState) :
    (toggleLayer name v s).features = s.features := by
  unfold toggleLayer
  cases h : lookupGroup name <;> simp [h] <;> split <;> rfl

theorem setActiveTool_select_frame (c : Bool) (s : EditorState) :
    setActiveTool "select" c s =
      { s with currentTool := "select", isDrawing := false } := by
  rfl

theorem handleDrawCreated_features (now : Int) (lt : String) (hs : Bool) (geom : Geometry)
    (s : EditorState) :
    (handleDrawCreated now lt hs geom s).features
      = upd s.features s.nextId
          { properties := getDefaultProperties now s.currentLayer, geometry := geom } := by
  simp only [handleDrawCreated, setActiveTool, enableTool, startDrawing, showNotification]
  simp [selectFeature_features]

theorem handleDrawCreated_mapLayers (now : Int) (lt : String) (hs : Bool) (geom : Geometry)
    (s : EditorState) :
    (handleDrawCreated now lt hs geom s).mapLayers
      = updG s.mapLayers .drawn (s.mapLayers .drawn ++ [(s.nextId, s.nextId + 1)]) := by
  simp only [handleDrawCreated, setActiveTool, enableTool, startDrawing, showNotification]
  simp [selectFeature_mapLayers]

theorem handleDrawCreated_selectedFeature (now : Int) (lt : String) (hs : Bool) (geom : Geometry)
    (s : EditorState) :
    (handleDrawCreated now lt hs geom s).selectedFeature
      = some ⟨s.nextId, s.nextId + 1, "drawn"⟩ := by
  simp only [handleDrawCreated, setActiveTool, enableTool, startDrawing, showNotification]
  simp [selectFeature_selectedFeature]

theorem handleDrawCreated_currentTool (now : Int) (lt : String) (hs : Bool) (geom : Geometry)
    (s : EditorState) :
    (handleDrawCreated now lt hs geom s).currentTool = "select" := by
  simp only [handleDrawCreated, setActiveTool, enableTool, startDrawing, showNotification]
  rfl

theorem getProp_getDefaultProperties_id (now : Int) (layerName : String) :
    getProp (getDefaultProperties now layerName) "id" = some (.num now) := by
  unfold getDefaultProperties
  split <;> try rfl
  split <;> try rfl
  split <;> rfl

/-- C10: for every layer name outside households/facilities/drawn (such as
roads or boundary), `getDefaultProperties` returns the generic fallback
record with a timestamp-derived id and name "New Feature", so a feature
drawn while such a layer is current still receives an id and a name. -/
theorem getDefaultProperties_generic_fallback (now : Int) (name : String)
    (h1 : name ≠ "households") (h2 : name ≠ "facilities") (h3 : name ≠ "drawn") :
    getDefaultProperties now name = [("id", .num now), ("name", .str "New Feature")] ∧
    getProp (getDefaultProperties now name) "id" = some (.num now) ∧
    getProp (getDefaultProperties now name) "name" = some (.str "New Feature") := by
  unfold getDefaultProperties
  rw [if_neg h1, if_neg h2, if_neg h3]
  refine ⟨rfl, ?_, ?_⟩ <;> simp [getProp]

/-- C10 witness: the fallback at the concrete layer name "roads". -/
theorem getDefaultProperties_generic_fallback_witness :
    (("roads" : String) ≠ "households" ∧ ("roads" : String) ≠ "facilities" ∧
      ("roads" : String) ≠ "drawn") ∧
    (getDefaultProperties 0 "roads" = [("id", .num 0), ("name", .str "New Feature")] ∧
     getProp (getDefaultProperties 0 "roads") "id" = some (.num 0) ∧
     getProp (getDefaultProperties 0 "roads") "name" = some (.str "New Feature")) :=
  ⟨⟨by decide, by decide, by decide⟩,
   getDefaultProperties_generic_fallback 0 "roads" (by decide) (by decide) (by decide)⟩

/-- C8: `handleDrawEdited` mutates no feature object and no renderable
group and leaves the selection unchanged; it only appends a user
notification, and in particular no feature's `geometry` field is updated. -/
theorem handleDrawEdited_only_notifies (s : EditorState) :
    handleDrawEdited s =
      { s with notifications := s.notifications ++ [("Features updated successfully", "success")] } ∧
    (handleDrawEdited s).features = s.features ∧
    (handleDrawEdited s).mapLayers = s.mapLayers ∧
    (handleDrawEdited s).selectedFeature = s.selectedFeature ∧
    (∀ fid, ((handleDrawEdited s).features fid).geometry = (s.features fid).geometry) :=
  ⟨rfl, rfl, rfl, rfl, fun _ => rfl⟩

/-- C6: toggling a layer off then on leaves every renderable group with
exactly the feature/shape pairs it had before, and the layer turned on
becomes `currentLayer`, the default target whose default properties a
newly drawn feature receives. -/
theorem toggleLayer_off_then_on (s : EditorState) (name : String) :
    (∀ g, (toggleLayer name true (toggleLayer name false s)).mapLayers g = s.mapLayers g) ∧
    (toggleLayer name true (toggleLayer name false s)).currentLayer = name ∧
    (∀ (now : Int) (layerType : String) (hasStyle : Bool) (geom : Geometry),
      ((handleDrawCreated now layerType hasStyle geom
            (toggleLayer name true (toggleLayer name false s))).features
          (toggleLayer name true (toggleLayer name false s)).nextId).properties
        = getDefaultProperties now name) := by
  refine ⟨?_, ?_, ?_⟩
  · intro g
    rw [toggleLayer_mapLayers, toggleLayer_mapLayers]
  · rw [toggleLayer_currentLayer_on]
  · intro now layerType hasStyle geom
    rw [handleDrawCreated_features, upd_self, toggleLayer_currentLayer_on]

/-- C5: a draw-created event adds exactly one new feature, to the
drawn-items group only, carrying the current layer's default properties
(with the timestamp-derived id) and the drawn shape's geometry; the new
feature becomes the selection and the tool reverts to select. -/
theorem handleDrawCreated_spec (now : Int) (layerType : String) (hasStyle : Bool)
    (geom : Geometry) (s : EditorState) :
    (handleDrawCreated now layerType hasStyle geom s).mapLayers .drawn
        = s.mapLayers .drawn ++ [(s.nextId, s.nextId + 1)] ∧
    (∀ g, g ≠ GroupName.drawn →
      (handleDrawCreated now layerType hasStyle geom s).mapLayers g = s.mapLayers g) ∧
    ((handleDrawCreated now layerType hasStyle geom s).features s.nextId).properties
        = getDefaultProperties now s.currentLayer ∧
    ((handleDrawCreated now layerType hasStyle geom s).features s.nextId).geometry = geom ∧
    getProp ((handleDrawCreated now layerType hasStyle geom s).features s.nextId).properties "id"
        = some (.num now) ∧
    (handleDrawCreated now layerType hasStyle geom s).selectedFeature
        = some ⟨s.nextId, s.nextId + 1, "drawn"⟩ ∧
    (handleDrawCreated now layerType hasStyle geom s).currentTool = "select" := by
  refine ⟨?_, ?_, ?_, ?_, ?_, ?_, ?_⟩
  · rw [handleDrawCreated_mapLayers, updG_self]
  · intro g hg
    rw [handleDrawCreated_mapLayers, updG_ne _ _ _ _ hg]
  · rw [handleDrawCreated_features, upd_self]
  · rw [handleDrawCreated_features, upd_self]
  · rw [handleDrawCreated_features, upd_self]
    exact getProp_getDefaultProperties_id now s.currentLayer
  · exact handleDrawCreated_selectedFeature now layerType hasStyle geom s
  · exact handleDrawCreated_currentTool now layerType hasStyle geom s

/-! Claim C1 concerns `saveAttributes` on a households selection whose
"Owner" form field was edited.  The form renders inputs with ids
`attr-id`, `attr-owner`, `attr-family`, `attr-residents`
(see `formInputIds "households"`), and `saveAttributes` derives each
property key by stripping `attr-`, so the Owner value is merged under the
key `owner` while the form, the popup and the sample data all read the
key `Owner`. -/

/-- Concrete state for claim C1: a loaded households feature (heap id 1,
shape id 2) with `Owner = "Juan"`, currently selected. -/
def ownerBugState : EditorState :=
  { initState with
    selectedFeature := some ⟨1, 2, "households"⟩,
    mapLayers := updG initState.mapLayers .households [(1, 2)],
    features := upd initState.features 1
      { properties := [("id", .num 5), ("Owner", .str "Juan"),
                       ("Family nm", .str "Cruz"), ("Residents", .num 4)],
        geometry := { gtype := "Point", coordinates := [] } },
    shapeStyles := upd initState.shapeStyles 2 ⟨2, "#000"⟩,
    shapeHasSetStyle := upd initState.shapeHasSetStyle 2 true,
    shapePopups := upd initState.shapePopups 2
      (createPopupContent
        { properties := [("id", .num 5), ("Owner", .str "Juan"),
                         ("Family nm", .str "Cruz"), ("Residents", .num 4)],
          geometry := { gtype := "Point", coordinates := [] } } "households"),
    mapHasShape := upd initState.mapHasShape 2 true }

/-- The households form inputs after the user changes the Owner field to
"X" and leaves the rest as rendered. -/
def ownerBugInputs : List (String × String) :=
  [("attr-id", "5"), ("attr-owner", "X"), ("attr-family", "Cruz"), ("attr-residents", "4")]

set_option maxRecDepth 400000 in
/-- C1: evaluation of `saveAttributes` at the claim's scenario.  The form
input ids are exactly `formInputIds "households"`, yet after the save the
feature's `properties.Owner` is still `"Juan"` (the value `"X"` went to
the lowercase key `owner`), and the regenerated popup does not contain
`"X"` — it still shows `"Juan"` — contradicting the claim that
`properties.Owner` becomes `"X"` and the popup contains `"X"`. -/
theorem saveAttributes_owner_key_mismatch :
    ownerBugInputs.map (fun i => i.1) = formInputIds "households" ∧
    getProp ((saveAttributes ownerBugInputs ownerBugState).features 1).properties "Owner"
        = some (PropVal.str "Juan") ∧
    getProp ((saveAttributes ownerBugInputs ownerBugState).features 1).properties "owner"
        = some (PropVal.str "X") ∧
    strContains ((saveAttributes ownerBugInputs ownerBugState).shapePopups 2) "X" = false ∧
    strContains ((saveAttributes ownerBugInputs ownerBugState).shapePopups 2) "Juan" = true ∧
    (∀ fid, fid ≠ 1 →
      (saveAttributes ownerBugInputs ownerBugState).features fid = ownerBugState.features fid) := by
  refine ⟨by decide, by decide, by decide, by decide, by decide, ?_⟩
  intro fid hfid
  unfold saveAttributes
  simp only [ownerBugState]
  exact upd_ne _ _ _ _ hfid

theorem getProp_map_overwrite (ps : List (String × PropVal)) (j k : String) (v : PropVal)
    (h : j ≠ k) :
    getProp (ps.map (fun p => if p.1 = j then (j, v) else p)) k = getProp ps k := by
  induction ps with
  | nil => rfl
  | cons p ps ih =>
    by_cases hp : p.1 = j
    · simp only [List.map, hp, if_pos rfl, getProp]
      rw [if_neg h, if_neg (hp ▸ h), ih]
    · simp only [List.map, if_neg hp, getProp, ih]

theorem getProp_append_single (ps : List (String × PropVal)) (j k : String) (v : PropVal)
    (h : j ≠ k) :
    getProp (ps ++ [(j, v)]) k = getProp ps k := by
  induction ps with
  | nil => simp [getProp, h]
  | cons p ps ih =>
    simp only [List.cons_append, getProp]
    rw [show ps.append [(j, v)] = ps ++ [(j, v)] from rfl, ih]

theorem getProp_setProp_ne (ps : List (String × PropVal)) (j k : String) (v : PropVal)
    (h : j ≠ k) :
    getProp (setProp ps j v) k = getProp ps k := by
  unfold setProp
  split
  · exact getProp_map_overwrite ps j k v h
  · exact getProp_append_single ps j k v h

theorem getProp_mergeProps_ne (new old : List (String × PropVal)) (k : String)
    (h : ∀ p ∈ new, p.1 ≠ k) :
    getProp (mergeProps old new) k = getProp old k := by
  induction new generalizing old with
  | nil => rfl
  | cons p new ih =>
    have hstep : mergeProps old (p :: new) = mergeProps (setProp old p.1 p.2) new := rfl
    rw [hstep, ih (setProp old p.1 p.2) (fun q hq => h q (List.mem_cons_of_mem p hq)),
      getProp_setProp_ne old p.1 k p.2 (h p (List.mem_cons_self p new))]

/-- C9: `saveAttributes` preserves every property key that no form input
maps to — the spread merge only adds or overwrites the keys derived from
the input ids, so keys such as `senior/PWD` or `Contact no` keep their
prior values. -/
theorem saveAttributes_preserves_other_keys (s : EditorState) (sel : Selection)
    (inputs : List (String × String)) (k : String)
    (hsel : s.selectedFeature = some sel)
    (hk : ∀ i ∈ inputs, replaceFirst i.1 "attr-" ≠ k) :
    getProp ((saveAttributes inputs s).features sel.feature).properties k
      = getProp ((s.features sel.feature).properties) k := by
  unfold saveAttributes
  simp only [hsel, showNotification, upd_self]
  exact getProp_mergeProps_ne _ _ k (by
    intro p hp
    rcases List.mem_map.mp hp with ⟨i, hi, rfl⟩
    exact hk i hi)

/-- Concrete state for the C9 witness: the selected households feature
carries extra keys `senior/PWD` and `Contact no` that no form input
touches. -/
def frameKeysState : EditorState :=
  { initState with
    selectedFeature := some ⟨1, 2, "households"⟩,
    mapLayers := updG initState.mapLayers .households [(1, 2)],
    features := upd initState.features 1
      { properties := [("id", .num 9), ("Owner", .str "Ana"),
                       ("Family nm", .str "Lim"), ("Residents", .num 2),
                       ("senior/PWD", .str "yes"), ("Contact no", .str "0917")],
        geometry := { gtype := "Point", coordinates := [] } },
    shapeHasSetStyle := upd initState.shapeHasSetStyle 2 true }

/-- The households form inputs for the C9 witness. -/
def frameKeysInputs : List (String × String) :=
  [("attr-id", "9"), ("attr-owner", "Bea"), ("attr-family", "Lim"), ("attr-residents", "3")]

set_option maxRecDepth 400000 in
/-- C9 witness: at the concrete state, the untouched key `senior/PWD`
keeps its value through a save. -/
theorem saveAttributes_preserves_other_keys_witness :
    frameKeysState.selectedFeature = some ⟨1, 2, "households"⟩ ∧
    (∀ i ∈ frameKeysInputs, replaceFirst i.1 "attr-" ≠ "senior/PWD") ∧
    getProp ((saveAttributes frameKeysInputs frameKeysState).features 1).properties "senior/PWD"
      = getProp ((frameKeysState.features 1).properties) "senior/PWD" :=
  ⟨rfl, by decide,
    saveAttributes_preserves_other_keys frameKeysState ⟨1, 2, "households"⟩
      frameKeysInputs "senior/PWD" rfl (by decide)⟩

/-- C2: a failed households load populates the households group with
exactly the three fixed sample features (property ids 101, 102, 103,
owners Cruz/Santos/Reyes); a failed load of any other layer leaves every
renderable group exactly as it was (no sample substitution). -/
theorem loadFailure_households_gets_samples (s : EditorState) (e : String)
    (hh : s.mapLayers GroupName.households = []) :
    (((loadGeoJSONLayer "households" (Except.error e) s).mapLayers GroupName.households).map
        (fun p => ((loadGeoJSONLayer "households" (Except.error e) s).features p.1).properties)
      = [[("id", PropVal.num 101), ("Owner", PropVal.str "Juan Cruz"),
          ("Family nm", PropVal.str "Cruz Family"), ("Residents", PropVal.num 4)],
         [("id", PropVal.num 102), ("Owner", PropVal.str "Maria Santos"),
          ("Family nm", PropVal.str "Santos Family"), ("Residents", PropVal.num 5)],
         [("id", PropVal.num 103), ("Owner", PropVal.str "Pedro Reyes"),
          ("Family nm", PropVal.str "Reyes Family"), ("Residents", PropVal.num 3)]]) ∧
    (∀ name, name = "facilities" ∨ name = "roads" ∨ name = "boundary" →
      ∀ g, (loadGeoJSONLayer name (Except.error e) s).mapLayers g = s.mapLayers g) := by
  constructor
  · have h1 : s.nextId ≠ s.nextId + 2 := by omega
    have h2 : s.nextId ≠ s.nextId + 4 := by omega
    have h3 : s.nextId + 2 ≠ s.nextId + 4 := by omega
    simp only [loadGeoJSONLayer, createSampleData, showNotification, sampleHouseholds,
      List.foldl, addSampleMarker, sampleFeature, if_pos rfl]
    simp [hh, upd, updG, h1, h2, h3]
  · intro name hname g
    rcases hname with rfl | rfl | rfl <;>
      simp [loadGeoJSONLayer, createSampleData, showNotification]

/-- C2 witness: the failed households load from the freshly initialized
state (all groups empty). -/
theorem loadFailure_households_gets_samples_witness :
    initState.mapLayers GroupName.households = [] ∧
    ((((loadGeoJSONLayer "households" (Except.error "HTTP 500") initState).mapLayers
          GroupName.households).map
        (fun p => ((loadGeoJSONLayer "households" (Except.error "HTTP 500") initState).features
            p.1).properties)
      = [[("id", PropVal.num 101), ("Owner", PropVal.str "Juan Cruz"),
          ("Family nm", PropVal.str "Cruz Family"), ("Residents", PropVal.num 4)],
         [("id", PropVal.num 102), ("Owner", PropVal.str "Maria Santos"),
          ("Family nm", PropVal.str "Santos Family"), ("Residents", PropVal.num 5)],
         [("id", PropVal.num 103), ("Owner", PropVal.str "Pedro Reyes"),
          ("Family nm", PropVal.str "Reyes Family"), ("Residents", PropVal.num 3)]]) ∧
     (∀ name, name = "facilities" ∨ name = "roads" ∨ name = "boundary" →
       ∀ g, (loadGeoJSONLayer name (Except.error "HTTP 500") initState).mapLayers g
          = initState.mapLayers g)) :=
  ⟨rfl, loadFailure_households_gets_samples initState "HTTP 500" rfl⟩

theorem removeShapeFromMap_mapHasShape (sid : Nat) (s : EditorState) :
    (removeShapeFromMap sid s).mapHasShape sid = false := by
  unfold removeShapeFromMap
  by_cases h : s.mapHasShape sid <;> simp [h]

theorem removeShapeFromMap_mapLayers (sid : Nat) (s : EditorState) :
    (removeShapeFromMap sid s).mapLayers = s.mapLayers := by
  unfold removeShapeFromMap
  split <;> rfl

theorem removeShapeFromMap_selectedFeature (sid : Nat) (s : EditorState) :
    (removeShapeFromMap sid s).selectedFeature = s.selectedFeature := by
  unfold removeShapeFromMap
  split <;> rfl

theorem removeShapeFromGroup_cleared (g : GroupName) (sid : Nat) (s : EditorState) :
    ∀ p ∈ (removeShapeFromGroup g sid s).mapLayers g, p.2 ≠ sid := by
  unfold removeShapeFromGroup
  split
  · intro p hp
    have hp2 : p ∈ (s.mapLayers g).filter (fun p => p.2 ≠ sid) := by
      simpa [updG] using hp
    have := List.of_mem_filter hp2
    simpa using this
  · next h =>
    intro p hp hps
    exact h (List.any_eq_true.mpr ⟨p, hp, by simpa using hps⟩)

theorem removeShapeFromGroup_other (g g2 : GroupName) (sid : Nat) (s : EditorState)
    (h : g2 ≠ g) :
    (removeShapeFromGroup g sid s).mapLayers g2 = s.mapLayers g2 := by
  unfold removeShapeFromGroup
  split
  · exact updG_ne s.mapLayers g g2 _ h
  · rfl

theorem removeShapeFromGroup_mapHasShape (g : GroupName) (sid : Nat) (s : EditorState) :
    (removeShapeFromGroup g sid s).mapHasShape = s.mapHasShape := by
  unfold removeShapeFromGroup
  split <;> rfl

theorem removeShapeFromGroup_selectedFeature (g : GroupName) (sid : Nat) (s : EditorState) :
    (removeShapeFromGroup g sid s).selectedFeature = s.selectedFeature := by
  unfold removeShapeFromGroup
  split <;> rfl

theorem deselectFeature_mapHasShape (s : EditorState) :
    (deselectFeature s).mapHasShape = s.mapHasShape := by
  unfold deselectFeature restorePrevSelection
  cases h : s.selectedFeature <;> simp [h]
  split <;> rfl

theorem showNotification_mapHasShape (m t : String) (s : EditorState) :
    (showNotification m t s).mapHasShape = s.mapHasShape := rfl

theorem showNotification_mapLayers (m t : String) (s : EditorState) :
    (showNotification m t s).mapLayers = s.mapLayers := rfl

theorem showNotification_selectedFeature (m t : String) (s : EditorState) :
    (showNotification m t s).selectedFeature = s.selectedFeature := rfl

/-- C4: with a selection present, `deleteSelectedFeature` without the
user's confirmation leaves the whole state unchanged (so the feature stays
in its group); with confirmation the shape is absent from the map, from
its layer's group and from the drawn-items group, and the selection is
cleared; with no selection the call is a no-op for any confirmation. -/
theorem deleteSelectedFeature_spec (s : EditorState) (sel : Selection) (g : GroupName)
    (hsel : s.selectedFeature = some sel)
    (hg : lookupGroup sel.layerName = some g) :
    deleteSelectedFeature false s = s ∧
    (deleteSelectedFeature true s).mapHasShape sel.layer = false ∧
    (∀ p ∈ (deleteSelectedFeature true s).mapLayers g, p.2 ≠ sel.layer) ∧
    (∀ p ∈ (deleteSelectedFeature true s).mapLayers GroupName.drawn, p.2 ≠ sel.layer) ∧
    (deleteSelectedFeature true s).selectedFeature = none ∧
    (∀ s2 : EditorState, s2.selectedFeature = none →
      ∀ c, deleteSelectedFeature c s2 = s2) := by
  have hnosel : ∀ s2 : EditorState, s2.selectedFeature = none →
      ∀ c, deleteSelectedFeature c s2 = s2 := by
    intro s2 h2 c
    unfold deleteSelectedFeature
    simp [h2]
  have hred : deleteSelectedFeature true s
      = showNotification "✅ Feature deleted successfully!" "success"
          (deselectFeature (removeShapeFromGroup .drawn sel.layer
            (removeShapeFromGroup g sel.layer (removeShapeFromMap sel.layer s)))) := by
    unfold deleteSelectedFeature
    simp [hsel, hg]
  refine ⟨?_, ?_, ?_, ?_, ?_, hnosel⟩
  · unfold deleteSelectedFeature
    simp [hsel]
  · rw [hred, showNotification_mapHasShape, deselectFeature_mapHasShape,
      removeShapeFromGroup_mapHasShape, removeShapeFromGroup_mapHasShape,
      removeShapeFromMap_mapHasShape]
  · rw [hred, showNotification_mapLayers, deselectFeature_mapLayers]
    by_cases hgd : g = GroupName.drawn
    · subst hgd
      exact removeShapeFromGroup_cleared _ _ _
    · intro p hp
      rw [removeShapeFromGroup_other _ _ _ _ hgd] at hp
      exact removeShapeFromGroup_cleared _ _ _ p hp
  · rw [hred, showNotification_mapLayers, deselectFeature_mapLayers]
    exact removeShapeFromGroup_cleared _ _ _
  · rw [hred, showNotification_selectedFeature, deselectFeature_selectedFeature]

/-- Concrete state for the C4 witness: a selected households feature
(heap id 1, shape id 2) present in the households group and on the map. -/
def deleteWitnessState : EditorState :=
  { initState with
    selectedFeature := some ⟨1, 2, "households"⟩,
    mapLayers := updG initState.mapLayers .households [(1, 2)],
    features := upd initState.features 1
      { properties := [("id", .num 5), ("Owner", .str "Juan")],
        geometry := { gtype := "Point", coordinates := [] } },
    shapeHasSetStyle := upd initState.shapeHasSetStyle 2 true,
    mapHasShape := upd initState.mapHasShape 2 true }

/-- C4 witness: the delete behaviour at the concrete selected state. -/
theorem deleteSelectedFeature_spec_witness :
    deleteWitnessState.selectedFeature = some ⟨1, 2, "households"⟩ ∧
    lookupGroup "households" = some GroupName.households ∧
    (deleteSelectedFeature false deleteWitnessState = deleteWitnessState ∧
     (deleteSelectedFeature true deleteWitnessState).mapHasShape 2 = false ∧
     (∀ p ∈ (deleteSelectedFeature true deleteWitnessState).mapLayers GroupName.households,
        p.2 ≠ 2) ∧
     (∀ p ∈ (deleteSelectedFeature true deleteWitnessState).mapLayers GroupName.drawn,
        p.2 ≠ 2) ∧
     (deleteSelectedFeature true deleteWitnessState).selectedFeature = none ∧
     (∀ s2 : EditorState, s2.selectedFeature = none →
       ∀ c, deleteSelectedFeature c s2 = s2)) :=
  ⟨rfl, rfl,
    deleteSelectedFeature_spec deleteWitnessState ⟨1, 2, "households"⟩
      GroupName.households rfl rfl⟩

/-- The highlight style `setStyle(\x7b weight: 4, color: '#ff0000' \x7d)`
applied to a newly selected shape. -/
def highlightStyle : Style := ⟨4, "#ff0000"⟩

/-- The normal style `setStyle(\x7b weight: 2, color: this.colors[layerName]
|| '#3388ff' \x7d)` restored on deselection. -/
def normalStyle (layerName : String) : Style := ⟨2, colorOr layerName⟩

/-- Invariant relating styles and selection: any shape carrying the
highlight style is a styleable shape and is the current selection's shape. -/
def OnlySelectedHighlighted (s : EditorState) : Prop :=
  ∀ sid, s.shapeStyles sid = highlightStyle →
    s.shapeHasSetStyle sid = true ∧ ∃ sel, s.selectedFeature = some sel ∧ sel.layer = sid

/-- At most one shape carries the highlight style. -/
def AtMostOneHighlight (s : EditorState) : Prop :=
  ∀ a b, s.shapeStyles a = highlightStyle → s.shapeStyles b = highlightStyle → a = b

theorem normalStyle_ne_highlightStyle (layerName : String) :
    normalStyle layerName ≠ highlightStyle := by
  intro h
  have h2 : (2 : Nat) = 4 := congrArg Style.weight h
  exact absurd h2 (by decide)

theorem restorePrevSelection_shapeStyles (s : EditorState) :
    (restorePrevSelection s).shapeStyles
      = match s.selectedFeature with
        | some sel =>
          if s.shapeHasSetStyle sel.layer = true then
            upd s.shapeStyles sel.layer (normalStyle sel.layerName)
          else s.shapeStyles
        | none => s.shapeStyles := by
  unfold restorePrevSelection
  cases h : s.selectedFeature <;> simp [h, normalStyle]
  split <;> rfl

theorem OnlySelectedHighlighted.atMostOne {s : EditorState}
    (h : OnlySelectedHighlighted s) : AtMostOneHighlight s := by
  intro a b ha hb
  obtain ⟨-, sa, hsa, hla⟩ := h a ha
  obtain ⟨-, sb, hsb, hlb⟩ := h b hb
  rw [hsa] at hsb
  cases hsb
  rw [← hla, ← hlb]

theorem restorePrevSelection_clears_highlight {s : EditorState}
    (h : OnlySelectedHighlighted s) :
    ∀ m, (restorePrevSelection s).shapeStyles m ≠ highlightStyle := by
  intro m hm
  rw [restorePrevSelection_shapeStyles] at hm
  cases hsel : s.selectedFeature with
  | none =>
    simp only [hsel] at hm
    obtain ⟨-, sel, hsel2, -⟩ := h m hm
    rw [hsel] at hsel2
    cases hsel2
  | some sel =>
    simp only [hsel] at hm
    by_cases hst : s.shapeHasSetStyle sel.layer = true
    · rw [if_pos hst] at hm
      by_cases hmsel : m = sel.layer
      · subst hmsel
        rw [upd_self] at hm
        exact normalStyle_ne_highlightStyle _ hm
      · rw [show (upd s.shapeStyles sel.layer (normalStyle sel.layerName)) m
            = s.shapeStyles m from upd_ne _ _ _ _ hmsel] at hm
        obtain ⟨-, sel2, hsel2, hl2⟩ := h m hm
        rw [hsel] at hsel2
        cases hsel2
        exact hmsel hl2.symm
    · rw [if_neg hst] at hm
      obtain ⟨hstm, sel2, hsel2, hl2⟩ := h m hm
      rw [hsel] at hsel2
      cases hsel2
      rw [← hl2] at hstm
      exact hst hstm

theorem selectFeature_styles_highlighted (fid sid : Nat) (ln : String) (b : Bool)
    (s : EditorState) (hst : s.shapeHasSetStyle sid = true) :
    (selectFeature fid sid ln b s).shapeStyles sid = highlightStyle := by
  simp only [selectFeature]
  rw [if_pos (by
    rw [restorePrevSelection_shapeHasSetStyle]
    exact hst)]
  exact upd_self _ _ _

theorem selectFeature_styles_other (fid sid : Nat) (ln : String) (b : Bool)
    (s : EditorState) (m : Nat) (hm : m ≠ sid) :
    (selectFeature fid sid ln b s).shapeStyles m = (restorePrevSelection s).shapeStyles m := by
  simp only [selectFeature]
  split
  · exact upd_ne _ _ _ _ hm
  · rfl

theorem selectFeature_preserves_OSH {s : EditorState} (fid sid : Nat) (ln : String) (b : Bool)
    (h : OnlySelectedHighlighted s) :
    OnlySelectedHighlighted (selectFeature fid sid ln b s) := by
  intro m hm
  by_cases hmsid : m = sid
  · subst hmsid
    refine ⟨?_, ⟨fid, m, ln⟩, selectFeature_selectedFeature fid m ln b s, rfl⟩
    by_cases hst : s.shapeHasSetStyle m = true
    · rw [selectFeature_shapeHasSetStyle]
      exact hst
    · exfalso
      rw [show (selectFeature fid m ln b s).shapeStyles m
          = (restorePrevSelection s).shapeStyles m by
        simp only [selectFeature]
        rw [if_neg (by rw [restorePrevSelection_shapeHasSetStyle]; exact hst)]] at hm
      exact restorePrevSelection_clears_highlight h m hm
  · exfalso
    rw [selectFeature_styles_other fid sid ln b s m hmsid] at hm
    exact restorePrevSelection_clears_highlight h m hm

/-- C3: selecting feature A then feature B (distinct styleable shapes):
the first call highlights A; the second call's restore step sets A back to
its layer's normal style (layer color, weight 2) while B is not yet
highlighted at that point; after the second call A carries the normal
style and B the thick red highlight; and in the initial, intermediate and
both final states at most one shape carries the highlight style. -/
theorem selectFeature_restores_before_highlight
    (s : EditorState) (fidA sidA fidB sidB : Nat) (lA lB : String)
    (hinv : OnlySelectedHighlighted s)
    (hA : s.shapeHasSetStyle sidA = true)
    (hB : s.shapeHasSetStyle sidB = true)
    (hne : sidA ≠ sidB) :
    (selectFeature fidA sidA lA false s).shapeStyles sidA = highlightStyle ∧
    (restorePrevSelection (selectFeature fidA sidA lA false s)).shapeStyles sidA
        = normalStyle lA ∧
    (restorePrevSelection (selectFeature fidA sidA lA false s)).shapeStyles sidB
        ≠ highlightStyle ∧
    (selectFeature fidB sidB lB false (selectFeature fidA sidA lA false s)).shapeStyles sidA
        = normalStyle lA ∧
    (selectFeature fidB sidB lB false (selectFeature fidA sidA lA false s)).shapeStyles sidB
        = highlightStyle ∧
    AtMostOneHighlight s ∧
    AtMostOneHighlight (selectFeature fidA sidA lA false s) ∧
    AtMostOneHighlight (restorePrevSelection (selectFeature fidA sidA lA false s)) ∧
    AtMostOneHighlight (selectFeature fidB sidB lB false (selectFeature fidA sidA lA false s)) := by
  have hosh1 : OnlySelectedHighlighted (selectFeature fidA sidA lA false s) :=
    selectFeature_preserves_OSH fidA sidA lA false hinv
  have hosh2 : OnlySelectedHighlighted
      (selectFeature fidB sidB lB false (selectFeature fidA sidA lA false s)) :=
    selectFeature_preserves_OSH fidB sidB lB false hosh1
  have hA1 : (selectFeature fidA sidA lA false s).shapeHasSetStyle sidA = true := by
    rw [selectFeature_shapeHasSetStyle]; exact hA
  have hmid : (restorePrevSelection (selectFeature fidA sidA lA false s)).shapeStyles sidA
      = normalStyle lA := by
    rw [restorePrevSelection_shapeStyles]
    simp only [selectFeature_selectedFeature, hA1, if_pos rfl]
    exact upd_self _ _ _
  refine ⟨selectFeature_styles_highlighted fidA sidA lA false s hA, hmid, ?_, ?_, ?_, ?_, ?_, ?_, ?_⟩
  · exact restorePrevSelection_clears_highlight hosh1 sidB
  · rw [selectFeature_styles_other fidB sidB lB false _ sidA hne]
    exact hmid
  · rw [selectFeature_shapeHasSetStyle] at hA1
    exact selectFeature_styles_highlighted fidB sidB lB false _ (by
      rw [selectFeature_shapeHasSetStyle]; exact hB)
  · exact hinv.atMostOne
  · exact hosh1.atMostOne
  · intro a b ha hb
    exact absurd ha (restorePrevSelection_clears_highlight hosh1 a)
  · exact hosh2.atMostOne

/-- Concrete state for the C3 witness: two styleable household shapes
(shape ids 2 and 4), none selected, none highlighted. -/
def selectWitnessState : EditorState :=
  { initState with
    mapLayers := updG initState.mapLayers .households [(1, 2), (3, 4)],
    shapeHasSetStyle := fun n => n = 2 ∨ n = 4,
    shapeStyles := fun _ => ⟨2, "#000"⟩ }

/-- C3 witness: selecting shape 2 then shape 4 at the concrete state. -/
theorem selectFeature_restores_before_highlight_witness :
    OnlySelectedHighlighted selectWitnessState ∧
    selectWitnessState.shapeHasSetStyle 2 = true ∧
    selectWitnessState.shapeHasSetStyle 4 = true ∧
    (2 : Nat) ≠ 4 ∧
    ((selectFeature 1 2 "households" false selectWitnessState).shapeStyles 2 = highlightStyle ∧
     (restorePrevSelection (selectFeature 1 2 "households" false
         selectWitnessState)).shapeStyles 2 = normalStyle "households" ∧
     (restorePrevSelection (selectFeature 1 2 "households" false
         selectWitnessState)).shapeStyles 4 ≠ highlightStyle ∧
     (selectFeature 3 4 "households" false (selectFeature 1 2 "households" false
         selectWitnessState)).shapeStyles 2 = normalStyle "households" ∧
     (selectFeature 3 4 "households" false (selectFeature 1 2 "households" false
         selectWitnessState)).shapeStyles 4 = highlightStyle ∧
     AtMostOneHighlight selectWitnessState ∧
     AtMostOneHighlight (selectFeature 1 2 "households" false selectWitnessState) ∧
     AtMostOneHighlight (restorePrevSelection
       (selectFeature 1 2 "households" false selectWitnessState)) ∧
     AtMostOneHighlight (selectFeature 3 4 "households" false
       (selectFeature 1 2 "households" false selectWitnessState))) :=
  ⟨by
    intro sid hs
    have h2 : (⟨2, "#000"⟩ : Style) = highlightStyle := hs
    exact absurd h2 (by decide),
   by decide, by decide, by decide,
    selectFeature_restores_before_highlight selectWitnessState 1 2 3 4
      "households" "households"
      (by
        intro sid hs
        have h2 : (⟨2, "#000"⟩ : Style) = highlightStyle := hs
        exact absurd h2 (by decide))
      (by decide) (by decide) (by decide)⟩

/-! Lemmas used for the selection/groups invariant (claim C7). -/

theorem mem_updG_append (f : GroupName → List (Nat × Nat)) (k g : GroupName)
    (new : List (Nat × Nat)) (p : Nat × Nat) (hp : p ∈ f g) :
    p ∈ updG f k (f k ++ new) g := by
  unfold updG
  split
  · next h => subst h; exact List.mem_append_left _ hp
  · exact hp

theorem addSampleMarker_selectedFeature (h : SampleHousehold) (s : EditorState) :
    (addSampleMarker h s).selectedFeature = s.selectedFeature := rfl

theorem addSampleMarker_mono (h : SampleHousehold) (s : EditorState) (g : GroupName)
    (p : Nat × Nat) (hp : p ∈ s.mapLayers g) :
    p ∈ (addSampleMarker h s).mapLayers g :=
  mem_updG_append s.mapLayers .households g _ p hp

theorem foldl_addSampleMarker_selectedFeature (l : List SampleHousehold) (s : EditorState) :
    (l.foldl (fun st h => addSampleMarker h st) s).selectedFeature = s.selectedFeature := by
  induction l generalizing s with
  | nil => rfl
  | cons h l ih => rw [List.foldl_cons, ih, addSampleMarker_selectedFeature]

theorem foldl_addSampleMarker_mono (l : List SampleHousehold) (s : EditorState)
    (g : GroupName) (p : Nat × Nat) (hp : p ∈ s.mapLayers g) :
    p ∈ (l.foldl (fun st h => addSampleMarker h st) s).mapLayers g := by
  induction l generalizing s with
  | nil => exact hp
  | cons h l ih => exact ih _ (addSampleMarker_mono h s g p hp)

theorem addLoadedFeature_selectedFeature (ln : String) (st : EditorState) (f : Feature) :
    (addLoadedFeature ln st f).selectedFeature = st.selectedFeature := by
  unfold addLoadedFeature
  cases h : lookupGroup ln <;> simp [h]

theorem addLoadedFeature_mono (ln : String) (st : EditorState) (f : Feature) (g : GroupName)
    (p : Nat × Nat) (hp : p ∈ st.mapLayers g) :
    p ∈ (addLoadedFeature ln st f).mapLayers g := by
  unfold addLoadedFeature
  cases h : lookupGroup ln with
  | none => exact hp
  | some g2 =>
    simp only [h]
    exact mem_updG_append st.mapLayers g2 g _ p hp

theorem foldl_addLoadedFeature_selectedFeature (ln : String) (l : List Feature)
    (s : EditorState) :
    (l.foldl (addLoadedFeature ln) s).selectedFeature = s.selectedFeature := by
  induction l generalizing s with
  | nil => rfl
  | cons f l ih => rw [List.foldl_cons, ih, addLoadedFeature_selectedFeature]

theorem foldl_addLoadedFeature_mono (ln : String) (l : List Feature) (s : EditorState)
    (g : GroupName) (p : Nat × Nat) (hp : p ∈ s.mapLayers g) :
    p ∈ (l.foldl (addLoadedFeature ln) s).mapLayers g := by
  induction l generalizing s with
  | nil => exact hp
  | cons f l ih => exact ih _ (addLoadedFeature_mono ln s f g p hp)

theorem createSampleData_selectedFeature (ln : String) (s : EditorState) :
    (createSampleData ln s).selectedFeature = s.selectedFeature := by
  unfold createSampleData
  split
  · exact foldl_addSampleMarker_selectedFeature _ _
  · rfl

theorem createSampleData_mono (ln : String) (s : EditorState) (g : GroupName)
    (p : Nat × Nat) (hp : p ∈ s.mapLayers g) :
    p ∈ (createSampleData ln s).mapLayers g := by
  unfold createSampleData
  split
  · exact foldl_addSampleMarker_mono _ _ _ _ hp
  · exact hp

theorem loadGeoJSONLayer_selectedFeature (ln : String) (res : Except String GeoJSONData)
    (s : EditorState) :
    (loadGeoJSONLayer ln res s).selectedFeature = s.selectedFeature := by
  cases res with
  | ok d =>
    show (addGeoJSONToMap d ln s).selectedFeature = s.selectedFeature
    exact foldl_addLoadedFeature_selectedFeature ln d.features s
  | error e =>
    show (createSampleData ln
        (showNotification ("Error loading " ++ ln ++ " data") "error" s)).selectedFeature
      = s.selectedFeature
    rw [createSampleData_selectedFeature, showNotification_selectedFeature]

theorem loadGeoJSONLayer_mono (ln : String) (res : Except String GeoJSONData)
    (s : EditorState) (g : GroupName) (p : Nat × Nat) (hp : p ∈ s.mapLayers g) :
    p ∈ (loadGeoJSONLayer ln res s).mapLayers g := by
  cases res with
  | ok d =>
    show p ∈ (addGeoJSONToMap d ln s).mapLayers g
    exact foldl_addLoadedFeature_mono ln d.features s g p hp
  | error e =>
    show p ∈ (createSampleData ln
        (showNotification ("Error loading " ++ ln ++ " data") "error" s)).mapLayers g
    exact createSampleData_mono _ _ _ _ hp

theorem handleDrawDeleted_selectedFeature (s : EditorState) :
    (handleDrawDeleted s).selectedFeature = none := rfl

/-- Invariant of claim C7: whenever a selection is present, the selected
feature/shape pair is in some renderable group. -/
def SelectionInGroups (s : EditorState) : Prop :=
  ∀ sel, s.selectedFeature = some sel →
    ∃ g, (sel.feature, sel.layer) ∈ s.mapLayers g

theorem deleteSelectedFeature_id_or_cleared (c : Bool) (s : EditorState) :
    deleteSelectedFeature c s = s ∨ (deleteSelectedFeature c s).selectedFeature = none := by
  cases hsel : s.selectedFeature with
  | none =>
    left
    unfold deleteSelectedFeature
    simp [hsel]
  | some sel =>
    cases c with
    | false =>
      left
      unfold deleteSelectedFeature
      simp [hsel]
    | true =>
      right
      unfold deleteSelectedFeature
      simp [hsel]
      rfl

theorem deleteSelectedFeature_inv (c : Bool) (s : EditorState)
    (hinv : SelectionInGroups s) : SelectionInGroups (deleteSelectedFeature c s) := by
  rcases deleteSelectedFeature_id_or_cleared c s with h | h
  · rw [h]; exact hinv
  · intro sel hsel
    rw [h] at hsel
    cases hsel

theorem enableTool_inv (tool : String) (c : Bool) (s : EditorState)
    (hinv : SelectionInGroups s) : SelectionInGroups (enableTool tool c s) := by
  simp only [enableTool, startDrawing]
  split
  · exact hinv
  split
  · exact hinv
  split
  · split
    · exact deleteSelectedFeature_inv c _ hinv
    · exact hinv
  · exact hinv

/-- One controller transition of claim C7: a feature click (the click
handler exists only on shapes that sit in a renderable group), a
background-map deselect, a delete, the three draw events (for *deleted*
the external toolkit first removes the shapes from the drawn-items group),
an attribute save, a visibility toggle, a layer load resolution, or a tool
change. -/
inductive Step : EditorState → EditorState → Prop where
  | select (s : EditorState) (fid sid : Nat) (ln : String) (isNew : Bool) (g : GroupName)
      (hmem : (fid, sid) ∈ s.mapLayers g) : Step s (selectFeature fid sid ln isNew s)
  | deselect (s : EditorState) : Step s (deselectFeature s)
  | delete (s : EditorState) (c : Bool) : Step s (deleteSelectedFeature c s)
  | drawCreated (s : EditorState) (now : Int) (layerType : String) (hasStyle : Bool)
      (geom : Geometry) : Step s (handleDrawCreated now layerType hasStyle geom s)
  | drawDeleted (s : EditorState) (sids : List Nat) :
      Step s (handleDrawDeleted (removeDrawnShapes sids s))
  | drawEdited (s : EditorState) : Step s (handleDrawEdited s)
  | save (s : EditorState) (inputs : List (String × String)) :
      Step s (saveAttributes inputs s)
  | toggle (s : EditorState) (name : String) (v : Bool) : Step s (toggleLayer name v s)
  | load (s : EditorState) (name : String) (res : Except String GeoJSONData) :
      Step s (loadGeoJSONLayer name res s)
  | setTool (s : EditorState) (tool : String) (c : Bool) : Step s (setActiveTool tool c s)

/-- Controller states reachable from the post-`init()` state. -/
inductive Reachable : EditorState → Prop where
  | init : Reachable initState
  | step (s s2 : EditorState) : Reachable s → Step s s2 → Reachable s2

theorem step_preserves_SelectionInGroups (s s2 : EditorState)
    (hinv : SelectionInGroups s) (hstep : Step s s2) : SelectionInGroups s2 := by
  cases hstep with
  | select fid sid ln isNew g hmem =>
    intro sel hsel
    rw [selectFeature_selectedFeature] at hsel
    cases hsel
    exact ⟨g, by rw [selectFeature_mapLayers]; exact hmem⟩
  | deselect =>
    intro sel hsel
    rw [deselectFeature_selectedFeature] at hsel
    cases hsel
  | delete c => exact deleteSelectedFeature_inv c s hinv
  | drawCreated now layerType hasStyle geom =>
    intro sel hsel
    rw [handleDrawCreated_selectedFeature] at hsel
    cases hsel
    refine ⟨.drawn, ?_⟩
    rw [handleDrawCreated_mapLayers, updG_self]
    exact List.mem_append_right _ (List.mem_singleton.mpr rfl)
  | drawDeleted sids =>
    intro sel hsel
    rw [handleDrawDeleted_selectedFeature] at hsel
    cases hsel
  | drawEdited =>
    intro sel hsel
    rw [show (handleDrawEdited s).selectedFeature = s.selectedFeature from rfl] at hsel
    obtain ⟨g, hg⟩ := hinv sel hsel
    exact ⟨g, hg⟩
  | save inputs =>
    intro sel hsel
    rw [saveAttributes_selectedFeature] at hsel
    obtain ⟨g, hg⟩ := hinv sel hsel
    exact ⟨g, by rw [saveAttributes_mapLayers]; exact hg⟩
  | toggle name v =>
    intro sel hsel
    rw [toggleLayer_selectedFeature] at hsel
    obtain ⟨g, hg⟩ := hinv sel hsel
    exact ⟨g, by rw [toggleLayer_mapLayers]; exact hg⟩
  | load name res =>
    intro sel hsel
    rw [loadGeoJSONLayer_selectedFeature] at hsel
    obtain ⟨g, hg⟩ := hinv sel hsel
    exact ⟨g, loadGeoJSONLayer_mono name res s g _ hg⟩
  | setTool tool c => exact enableTool_inv tool c _ hinv

/-- C7: in every reachable controller state there is at most one selection
(the `selectedFeature` field holds at most one triple), and a present
selection refers to a feature/shape pair currently in some renderable
group; every controller transition — selectFeature, deselectFeature,
deleteSelectedFeature, the draw events, saves, toggles, loads and tool
changes — preserves this. -/
theorem reachable_selection_invariant (s : EditorState) (h : Reachable s) :
    (∀ a b : Selection, s.selectedFeature = some a → s.selectedFeature = some b → a = b) ∧
    SelectionInGroups s := by
  induction h with
  | init =>
    refine ⟨fun a b ha hb => ?_, fun sel hsel => ?_⟩
    · rw [ha] at hb
      cases hb
      rfl
    · cases hsel
  | step s s2 hr hstep ih =>
    refine ⟨fun a b ha hb => ?_, ?_⟩
    · rw [ha] at hb
      cases hb
      rfl
    · exact step_preserves_SelectionInGroups s s2 ih.2 hstep

/-- C7 witness: the invariant at the reachable initial state. -/
theorem reachable_selection_invariant_witness :
    Reachable initState ∧
    ((∀ a b : Selection, initState.selectedFeature = some a →
        initState.selectedFeature = some b → a = b) ∧
     SelectionInGroups initState) :=
  ⟨Reachable.init, reachable_selection_invariant initState Reachable.init⟩
